import Mathlib

/-!
Verification of the aoupy bucket I/O facade (`src/aoupy/bucket.py`).

The module moves CSV files between a cloud bucket (via `gsutil` /
`gcloud storage` subprocess calls) and a local workspace, and parses them
with polars.  We embed each Python function as a Lean function over an
explicit external `World` (environment variable, filesystem directory
predicate, subprocess layer, CSV contents), returning the ordered trace of
observable side effects together with the result or the raised exception.
-/

/-- Python `str.split(sep)` for a one-character separator, on the character
list of a string: splits at every occurrence of `sep`, keeping empty
segments, always returning at least one segment. -/
def pySplitChar (sep : Char) : List Char → List (List Char)
  | [] => [[]]
  | c :: cs =>
    if c = sep then [] :: pySplitChar sep cs
    else
      match pySplitChar sep cs with
      | [] => [[c]]
      | g :: gs => (c :: g) :: gs

/-- Python `s.split(sep)` for a one-character separator, on strings. -/
def pySplit (sep : Char) (s : String) : List String :=
  (pySplitChar sep s.data).map (fun cs => String.mk cs)

/-- Python negative index `lst[-1]`; `split` never returns an empty list,
so the default is never used at the call sites below. -/
def pyLast (l : List String) : String := l.getLastD ""

/-- Python `sep.join(lst)`. -/
def pyJoin (sep : String) : List String → String
  | [] => ""
  | [x] => x
  | x :: xs => x ++ sep ++ pyJoin sep xs

/-- Fuel-indexed core of Python `str.replace` for a non-empty pattern:
replaces non-overlapping occurrences left to right.  The fuel is an upper
bound on the input length; every step consumes at least one character, so
fuel equal to the input length suffices. -/
def pyReplaceFuel (old new : List Char) : Nat → List Char → List Char
  | 0, s => s
  | _ + 1, [] => []
  | fuel + 1, c :: cs =>
    if old.isPrefixOf (c :: cs) then
      new ++ pyReplaceFuel old new fuel (List.drop old.length (c :: cs))
    else c :: pyReplaceFuel old new fuel cs

/-- Python `s.replace(old, new)`: every non-overlapping occurrence of
`old` in `s` is replaced by `new`, scanning left to right; for the empty
pattern, `new` is inserted before every character and at the end. -/
def pyReplace (s old new : String) : String :=
  match old.data with
  | [] => String.mk (new.data ++ (s.data.map (fun c => c :: new.data)).flatten)
  | _ :: _ => String.mk (pyReplaceFuel old.data new.data s.data.length s.data)

/-- Whether `pat` occurs as a contiguous sublist of `s`. -/
def hasOccurrence (pat : List Char) : List Char → Bool
  | [] => pat.isPrefixOf []
  | c :: cs => pat.isPrefixOf (c :: cs) || hasOccurrence pat cs

/-- An eager polars dataframe, reduced to its rows.  Every read in the
module disables schema inference, so all cell values are text. -/
structure DF where
  rows : List (List String)
deriving DecidableEq, Repr

/-- A polars lazy frame: a deferred plan whose materialization is known. -/
structure LF where
  plan : DF
deriving DecidableEq, Repr

/-- polars `LazyFrame.collect`: materialize the plan. -/
def LF.collect (l : LF) : DF := l.plan

/-- polars `DataFrame.vstack`: vertical concatenation. -/
def DF.vstack (x y : DF) : DF := ⟨x.rows ++ y.rows⟩

/-- A frame as returned by `read_from_bucket`: lazy (`scan_csv`) or eager
(`read_csv`) according to the `lazy` flag. -/
inductive Frame
  | lazyF (lf : LF)
  | eagerF (df : DF)
deriving DecidableEq, Repr

/-- The dataframe a frame denotes: `collect` for a lazy frame, the frame
itself for an eager one. -/
def Frame.toDF : Frame → DF
  | .lazyF lf => lf.collect
  | .eagerF df => df

/-- The Python exceptions the module can raise or propagate. -/
inductive PyError
  | valueError (msg : String)
  | calledProcessError (returncode : Nat)
  | typeError (msg : String)
  | osError (msg : String)
deriving DecidableEq, Repr

/-- Observable side effects of the module, in program order. -/
inductive Event
  | system (cmd : String)
  | checkOutput (cmd : String)
  | makedirs (path : String)
  | scanCsv (path : String)
  | readCsv (path : String)
  | writeCsv (path : String) (df : DF)
  | stdoutLine (msg : String)
deriving DecidableEq, Repr

/-- The external world the module interacts with: the `WORKSPACE_BUCKET`
environment variable, the filesystem's directory predicate, the subprocess
layer (captured stdout of list commands as exit code or output, and the
exit status of fire-and-forget commands, which the code never reads), and
the dataframe parsed from a staged CSV path. -/
structure World where
  env : Option String
  isdir : String → Bool
  lsOutput : String → Except Nat String
  sysExit : String → Nat
  parse : String → DF

/-- The idiom `if bucket_id == None: bucket_id = os.getenv('WORKSPACE_BUCKET')`
shared by every operation. -/
def resolveBucket (w : World) (bucket_id : Option String) : Option String :=
  match bucket_id with
  | none => w.env
  | some b => some b

/-- Python f-string rendering of a possibly-absent bucket identifier
(an unset environment variable renders as the text `None`). -/
def pyStr : Option String → String
  | none => "None"
  | some s => s

/-- aoupy `copy_from_bucket`: fire-and-forget `gsutil cp` into the current
directory, then an unconditional informational stdout line; the exit
status returned by `os.system` is discarded. -/
def copy_from_bucket (w : World) (file_path : String) (bucket_id : Option String) :
    List Event :=
  let b := resolveBucket w bucket_id
  [Event.system ("gsutil cp '" ++ pyStr b ++ "/" ++ file_path ++ "' ."),
   Event.stdoutLine ("[INFO] " ++ file_path ++ " is successfully downloaded into your working space")]

/-- The `gsutil ls` command `ls_bucket` issues. -/
def lsCmd (w : World) (target bucket_id : Option String) : String :=
  match target with
  | none => "gsutil ls " ++ pyStr (resolveBucket w bucket_id)
  | some t => "gsutil ls " ++ pyStr (resolveBucket w bucket_id) ++ "/" ++ t

/-- aoupy `ls_bucket`: builds the `gsutil ls` command; in list mode it
captures stdout via `subprocess.check_output` (raising CalledProcessError
on non-zero exit), splits it on newlines and drops the last element;
otherwise it runs fire-and-forget and returns nothing. -/
def ls_bucket (w : World) (target bucket_id : Option String) (return_list : Bool) :
    List Event × Except PyError (Option (List String)) :=
  let cmd := lsCmd w target bucket_id
  if return_list then
    match w.lsOutput cmd with
    | Except.error code => ([Event.checkOutput cmd], Except.error (PyError.calledProcessError code))
    | Except.ok out => ([Event.checkOutput cmd], Except.ok (some ((pySplit '\n' out).dropLast)))
  else
    ([Event.system cmd], Except.ok none)

/-- aoupy `copy_to_bucket`: creates the local directories implied by the
remote target path (a quirk of the original code), then fire-and-forget
`gsutil cp` of the local file to the bucket target. -/
def copy_to_bucket (w : World) (file_name target : String) (bucket_id : Option String) :
    List Event :=
  let b := resolveBucket w bucket_id
  let target_folder := pySplit '/' target
  let mk :=
    if 1 < target_folder.length ∧ w.isdir (pyJoin "/" target_folder.dropLast) = false then
      [Event.makedirs (pyJoin "/" target_folder.dropLast)]
    else []
  mk ++ [Event.system ("gsutil cp " ++ file_name ++ " " ++ pyStr b ++ "/" ++ target)]

/-- aoupy `remove_from_bucket`: fire-and-forget `gsutil rm`. -/
def remove_from_bucket (w : World) (file_path : String) (bucket_id : Option String) :
    List Event :=
  [Event.system ("gsutil rm " ++ pyStr (resolveBucket w bucket_id) ++ "/" ++ file_path)]

/-- Python `functools.reduce` with no initial value: raises TypeError on an
empty iterable, otherwise folds from the left starting at the first
element. -/
def pyReduce (f : DF → DF → DF) : List DF → Except PyError DF
  | [] => Except.error (PyError.typeError "reduce() of empty iterable with no initial value")
  | x :: xs => Except.ok (xs.foldl f x)

/-- The extension test of `read_from_bucket`:
Python `file_name.split(".")[-1] != "csv"`. -/
def extNotCsv (file_name : String) : Bool :=
  pyLast (pySplit '.' file_name) != "csv"

/-- The possible results of `read_from_bucket`. -/
inductive LoadResult
  | one (f : Frame)
  | many (fs : List Frame)
  | stacked (df : DF)
deriving DecidableEq, Repr

/-- aoupy `read_from_bucket`: validates arguments, resolves the bucket,
creates the staging subfolder on demand, then either downloads and parses
one file (four cases over folder presence and laziness) or lists the
folder, wildcard-downloads it and parses each listed object, optionally
stacking.  `pl.scan_csv` / `pl.read_csv` on a path yield `w.parse` of that
path; Python `f.replace(bucket_id, "bucket_io")` is `pyReplace`, and with
`bucket_id = None` that call raises TypeError (only reached when the loop
body runs, i.e. the listing is non-empty).  Returns the event trace
together with the result or the raised exception. -/
def read_from_bucket (w : World) (file_name file_folder bucket_id : Option String)
    (lazy stack : Bool) : List Event × Except PyError LoadResult :=
  match file_name, file_folder with
  | none, none =>
    ([], Except.error (PyError.valueError "Neither file_path nor file_folder is specified"))
  | some fn, ff =>
    if extNotCsv fn then
      ([], Except.error (PyError.valueError "The specified file is not csv format hence cannot be loaded"))
    else
      let b := resolveBucket w bucket_id
      match ff with
      | none =>
        let cmd := "gcloud storage cp '" ++ pyStr b ++ "/" ++ fn ++ "' 'bucket_io'"
        let path := "bucket_io/" ++ fn
        if lazy then
          ([Event.system cmd, Event.scanCsv path],
           Except.ok (LoadResult.one (Frame.lazyF ⟨w.parse path⟩)))
        else
          ([Event.system cmd, Event.readCsv path],
           Except.ok (LoadResult.one (Frame.eagerF (w.parse path))))
      | some f2 =>
        let mk := if w.isdir ("bucket_io/" ++ f2) then [] else [Event.makedirs ("bucket_io/" ++ f2)]
        if lazy then
          let cmd := "gcloud storage cp '" ++ pyStr b ++ "/" ++ f2 ++ "/" ++ fn ++ "' 'bucket_io/" ++ f2 ++ "'"
          let path := "bucket_io/" ++ f2 ++ "/" ++ fn
          (mk ++ [Event.system cmd, Event.scanCsv path],
           Except.ok (LoadResult.one (Frame.lazyF ⟨w.parse path⟩)))
        else
          let cmd := "gcloud storage cp '" ++ pyStr b ++ "/" ++ f2 ++ "/" ++ fn ++ "' 'bucket_io'"
          let path := "bucket_io/" ++ f2 ++ "/" ++ fn
          (mk ++ [Event.system cmd, Event.readCsv path],
           Except.ok (LoadResult.one (Frame.eagerF (w.parse path))))
  | none, some f2 =>
    let b := resolveBucket w bucket_id
    let mk := if w.isdir ("bucket_io/" ++ f2) then [] else [Event.makedirs ("bucket_io/" ++ f2)]
    let ls := ls_bucket w (some f2) b true
    match ls.2 with
    | Except.error e => (mk ++ ls.1, Except.error e)
    | Except.ok r =>
      let file_targets := r.getD []
      let cpCmd := "gcloud storage cp '" ++ pyStr b ++ "/" ++ f2 ++ "/*.csv' 'bucket_io/" ++ f2 ++ "'"
      let pathsE : Except PyError (List String) :=
        match b with
        | some bId => Except.ok (file_targets.map (fun f => pyReplace f bId "bucket_io"))
        | none =>
          match file_targets with
          | [] => Except.ok []
          | _ :: _ => Except.error (PyError.typeError "replace() argument 1 must be str, not None")
      match pathsE with
      | Except.error e => (mk ++ ls.1 ++ [Event.system cpCmd], Except.error e)
      | Except.ok paths =>
        let parseEv := paths.map (fun p => if lazy then Event.scanCsv p else Event.readCsv p)
        let dfs := paths.map (fun p => if lazy then Frame.lazyF ⟨w.parse p⟩ else Frame.eagerF (w.parse p))
        let base := mk ++ ls.1 ++ [Event.system cpCmd] ++ parseEv
        if stack ∧ lazy then
          match pyReduce DF.vstack (dfs.map Frame.toDF) with
          | Except.error e => (base, Except.error e)
          | Except.ok df => (base, Except.ok (LoadResult.stacked df))
        else if stack then
          match pyReduce DF.vstack (dfs.map Frame.toDF) with
          | Except.error e => (base, Except.error e)
          | Except.ok df => (base, Except.ok (LoadResult.stacked df))
        else
          (base, Except.ok (LoadResult.many dfs))

/-- aoupy `write_to_bucket`: serializes the dataframe to the fixed path
`bucket_io/temp.csv` (the polars CSV writer does not create missing parent
directories, so the write raises when `bucket_io` does not exist) and then
delegates to `copy_to_bucket`. -/
def write_to_bucket (w : World) (file : DF) (target : String) (bucket_id : Option String) :
    List Event × Except PyError Unit :=
  if w.isdir "bucket_io" then
    (Event.writeCsv "bucket_io/temp.csv" file :: copy_to_bucket w "bucket_io/temp.csv" target bucket_id,
     Except.ok ())
  else
    ([], Except.error (PyError.osError "bucket_io/temp.csv: no such file or directory"))

/-- Spec-side definition, modelled from the spec wording for claim
comparison: substitute only the leading occurrence of the bucket
identifier in a listed path with the local staging root, leaving the rest
of the path unchanged. -/
def substituteLeading (pathStr bucketId repl : String) : String :=
  if bucketId.data.isPrefixOf pathStr.data then
    repl ++ String.mk (pathStr.data.drop bucketId.data.length)
  else pathStr

/-- A concrete external world: bucket env set, no local directories yet,
empty listings, empty CSV contents. -/
def wDemo : World where
  env := some "gs://ws"
  isdir := fun _ => false
  lsOutput := fun _ => Except.ok ""
  sysExit := fun _ => 0
  parse := fun _ => ⟨[]⟩

/-- A concrete external world whose listing returns two objects and whose
local directories all exist; each staged CSV parses to one row holding its
own path. -/
def wLs : World where
  env := some "gs://ws"
  isdir := fun _ => true
  lsOutput := fun _ => Except.ok "gs://ws/d/a.csv\ngs://ws/d/b.csv\n"
  sysExit := fun _ => 0
  parse := fun p => ⟨[[p]]⟩

/-- A concrete external world where every subprocess invocation fails with
exit status 1. -/
def wFail : World where
  env := some "gs://ws"
  isdir := fun _ => true
  lsOutput := fun _ => Except.error 1
  sysExit := fun _ => 1
  parse := fun _ => ⟨[]⟩

/-- A concrete external world whose bucket identifier also occurs a second
time inside a listed object path. -/
def wRep : World where
  env := some "b"
  isdir := fun _ => true
  lsOutput := fun _ => Except.ok "b/x/b\n"
  sysExit := fun _ => 0
  parse := fun _ => ⟨[]⟩

theorem DF.rows_eq : ∀ {x y : DF}, x.rows = y.rows → x = y
  | ⟨_⟩, ⟨_⟩, h => by simpa using h

theorem foldl_vstack_rows (d : DF) (ds : List DF) :
    (ds.foldl DF.vstack d).rows = d.rows ++ (ds.map DF.rows).flatten := by
  induction ds generalizing d with
  | nil => simp
  | cons e es ih => simp [ih, DF.vstack, List.append_assoc]

theorem pyReduce_vstack_cons (d : DF) (ds : List DF) :
    pyReduce DF.vstack (d :: ds) = Except.ok ⟨((d :: ds).map DF.rows).flatten⟩ := by
  show Except.ok (ds.foldl DF.vstack d) = _
  congr 1
  apply DF.rows_eq
  simp [foldl_vstack_rows]

theorem hasOccurrence_eq_false_cons {pat : List Char} {c : Char} {cs : List Char}
    (h : hasOccurrence pat (c :: cs) = false) :
    pat.isPrefixOf (c :: cs) = false ∧ hasOccurrence pat cs = false := by
  simpa [hasOccurrence] using h

theorem pyReplaceFuel_of_no_occurrence (old new : List Char) :
    ∀ fuel s, s.length ≤ fuel → hasOccurrence old s = false →
      pyReplaceFuel old new fuel s = s := by
  intro fuel
  induction fuel with
  | zero => intro s _ _; rfl
  | succ n ih =>
    intro s hlen hocc
    cases s with
    | nil => rfl
    | cons c cs =>
      obtain ⟨h1, h2⟩ := hasOccurrence_eq_false_cons hocc
      simp only [pyReplaceFuel, h1, Bool.false_eq_true, if_false, List.cons.injEq, true_and]
      exact ih cs (by simpa using Nat.le_of_succ_le_succ hlen) h2

theorem pyReplaceFuel_prefix_step (old new : List Char) (fuel : Nat) (c : Char) (cs : List Char)
    (h : old.isPrefixOf (c :: cs) = true) :
    pyReplaceFuel old new (fuel + 1) (c :: cs) =
      new ++ pyReplaceFuel old new fuel (List.drop old.length (c :: cs)) := by
  simp [pyReplaceFuel, h]

theorem pyReplace_leading (b rest new : String) (hne : b.data ≠ [])
    (hno : hasOccurrence b.data rest.data = false) :
    pyReplace (b ++ rest) b new = new ++ rest := by
  obtain ⟨bd⟩ := b
  obtain ⟨rd⟩ := rest
  obtain ⟨nd⟩ := new
  simp only at hno
  cases bd with
  | nil => exact absurd rfl hne
  | cons o os =>
    have hpre : (o :: os).isPrefixOf (o :: (os ++ rd)) = true := by
      rw [List.isPrefixOf_iff_prefix]
      exact List.prefix_append _ _
    have hdrop : List.drop (o :: os).length (o :: (os ++ rd)) = rd := by
      exact List.drop_left (o :: os) rd
    show String.mk (pyReplaceFuel (o :: os) nd ((os ++ rd).length + 1) (o :: (os ++ rd))) =
      String.mk (nd ++ rd)
    rw [pyReplaceFuel_prefix_step _ _ _ _ _ hpre, hdrop,
      pyReplaceFuel_of_no_occurrence (o :: os) nd _ rd (by simp) hno]

/-- C7: calling Load with neither a file name nor a folder raises
ArgumentError (a ValueError) and performs no side effect at all, whatever
the world, bucket, laziness and stacking arguments are. -/
theorem load_no_args_raises (w : World) (bucket_id : Option String) (lazy stack : Bool) :
    read_from_bucket w none none bucket_id lazy stack =
      ([], Except.error (PyError.valueError "Neither file_path nor file_folder is specified")) := rfl

/-- C1 counterexample: the file name "csv" does not end in ".csv", yet Load
accepts it (its last "."-separated segment is "csv") and proceeds to the
download and the parse instead of raising before any network call. -/
theorem load_ext_counterexample :
    (".csv".data.isSuffixOf "csv".data) = false ∧
    read_from_bucket wDemo (some "csv") none none true false =
      ([Event.system "gcloud storage cp 'gs://ws/csv' 'bucket_io'", Event.scanCsv "bucket_io/csv"],
       Except.ok (LoadResult.one (Frame.lazyF ⟨⟨[]⟩⟩))) := by
  exact ⟨by decide, rfl⟩

/-- C1 (amended): Load raises FormatError (a ValueError), before any
subprocess or filesystem event, exactly when the file name's last
"."-separated segment differs from "csv"; every file name containing a "."
and not ending in ".csv" therefore raises, while the dotless name "csv"
itself is accepted although it does not end in ".csv". -/
theorem load_bad_extension_raises (w : World) (fn : String) (ff bucket_id : Option String)
    (lazy stack : Bool) (h : pyLast (pySplit '.' fn) ≠ "csv") :
    read_from_bucket w (some fn) ff bucket_id lazy stack =
      ([], Except.error (PyError.valueError "The specified file is not csv format hence cannot be loaded")) := by
  have hb : extNotCsv fn = true := bne_iff_ne.mpr h
  unfold read_from_bucket
  simp [hb]

theorem load_bad_extension_raises_witness :
    read_from_bucket wDemo (some "data.txt") none none true false =
      ([], Except.error (PyError.valueError "The specified file is not csv format hence cannot be loaded")) :=
  load_bad_extension_raises wDemo "data.txt" none none true false (by decide)

/-- C2: with a file name and a folder both given and lazy reading disabled,
the download command copies the remote object into the staging root
`bucket_io`, not into `bucket_io/d`, while the parse reads
`bucket_io/d/a.csv` — a path the download did not stage. -/
theorem load_nonlazy_folder_staging_mismatch :
    read_from_bucket wDemo (some "a.csv") (some "d") none false false =
      ([Event.makedirs "bucket_io/d",
        Event.system "gcloud storage cp 'gs://ws/d/a.csv' 'bucket_io'",
        Event.readCsv "bucket_io/d/a.csv"],
       Except.ok (LoadResult.one (Frame.eagerF ⟨[]⟩))) ∧
    ("gcloud storage cp 'gs://ws/d/a.csv' 'bucket_io'" : String) ≠
      "gcloud storage cp 'gs://ws/d/a.csv' 'bucket_io/d'" := by
  exact ⟨rfl, by decide⟩

/-- C8 counterexample: in a world where every CLI invocation exits with
status 1 (the copy fails), Download still emits its informational stdout
line, because the exit status of the copy is never inspected. -/
theorem download_print_counterexample :
    wFail.sysExit "gsutil cp 'gs://ws/f.csv' ." = 1 ∧
    copy_from_bucket wFail "f.csv" none =
      [Event.system "gsutil cp 'gs://ws/f.csv' .",
       Event.stdoutLine "[INFO] f.csv is successfully downloaded into your working space"] := by
  exact ⟨rfl, rfl⟩

/-- C8 (amended): Download emits its single informational stdout line
unconditionally, right after the copy command, for every call — the copy's
exit status is ignored, so the line also appears when the copy failed. -/
theorem download_always_prints (w : World) (fp : String) (bucket_id : Option String) :
    copy_from_bucket w fp bucket_id =
      [Event.system ("gsutil cp '" ++ pyStr (resolveBucket w bucket_id) ++ "/" ++ fp ++ "' ."),
       Event.stdoutLine ("[INFO] " ++ fp ++ " is successfully downloaded into your working space")] := rfl

/-- C10: WriteRemote serializes to the fixed path `bucket_io/temp.csv`
without creating the staging directory first: when `bucket_io` is missing
the call fails with a filesystem error and produces no event at all — in
particular no write, no directory creation and no upload command. -/
theorem write_remote_missing_staging_dir (w : World) (df : DF) (target : String)
    (bucket_id : Option String) (h : w.isdir "bucket_io" = false) :
    write_to_bucket w df target bucket_id =
      ([], Except.error (PyError.osError "bucket_io/temp.csv: no such file or directory")) := by
  unfold write_to_bucket
  simp [h]

theorem write_remote_missing_staging_dir_witness :
    write_to_bucket wDemo ⟨[["1", "2"]]⟩ "d/out.csv" none =
      ([], Except.error (PyError.osError "bucket_io/temp.csv: no such file or directory")) :=
  write_remote_missing_staging_dir wDemo ⟨[["1", "2"]]⟩ "d/out.csv" none rfl

theorem resolveBucket_idem (w : World) (bid : Option String) :
    resolveBucket w (resolveBucket w bid) = resolveBucket w bid := by
  cases bid with
  | some b => rfl
  | none =>
    show resolveBucket w w.env = w.env
    cases h : w.env with
    | none => simp [resolveBucket, h]
    | some v => rfl

/-- C3: List in list mode: when the captured output splits on newlines into
exactly the non-empty lines `lines` followed by one trailing empty line,
the call returns exactly those object-path strings, in output order and
none empty; and a non-zero subprocess exit raises CalledProcessError. -/
theorem ls_bucket_return_list_spec (w : World) (target bucket_id : Option String)
    (lines : List String) :
    (∀ out, w.lsOutput (lsCmd w target bucket_id) = Except.ok out →
      pySplit '\n' out = lines ++ [""] →
      (∀ l ∈ lines, l ≠ "") →
      (ls_bucket w target bucket_id true).2 = Except.ok (some lines) ∧
        (∀ l ∈ lines, l ≠ "")) ∧
    (∀ code, w.lsOutput (lsCmd w target bucket_id) = Except.error code →
      (ls_bucket w target bucket_id true).2 =
        Except.error (PyError.calledProcessError code)) := by
  constructor
  · intro out hout hsplit hne
    refine ⟨?_, hne⟩
    unfold ls_bucket
    simp [hout, hsplit]
  · intro code hcode
    unfold ls_bucket
    simp [hcode]

theorem ls_bucket_return_list_spec_witness :
    (ls_bucket wLs (some "d") none true).2 =
      Except.ok (some ["gs://ws/d/a.csv", "gs://ws/d/b.csv"]) ∧
    (∀ l ∈ ["gs://ws/d/a.csv", "gs://ws/d/b.csv"], l ≠ "") :=
  (ls_bucket_return_list_spec wLs (some "d") none ["gs://ws/d/a.csv", "gs://ws/d/b.csv"]).1
    "gs://ws/d/a.csv\ngs://ws/d/b.csv\n" rfl rfl (by decide)

/-- C9: folder-mode Load with stacking over an empty listing raises (the
fold over the parsed frames has nothing to fold — Python `reduce` on an
empty iterable) instead of returning an empty dataframe or an empty
sequence, for both lazy modes. -/
theorem load_folder_stack_empty_raises (w : World) (ff out : String)
    (bucket_id : Option String) (lazy : Bool)
    (hout : w.lsOutput ("gsutil ls " ++ pyStr (resolveBucket w bucket_id) ++ "/" ++ ff) =
      Except.ok out)
    (hsplit : (pySplit '\n' out).dropLast = []) :
    (read_from_bucket w none (some ff) bucket_id lazy true).2 =
      Except.error (PyError.typeError "reduce() of empty iterable with no initial value") := by
  simp only [read_from_bucket, ls_bucket, lsCmd, resolveBucket_idem]
  cases hb : resolveBucket w bucket_id with
  | none =>
    rw [hb] at hout
    simp only [pyStr] at hout
    simp at hout
    cases lazy <;> simp [pyStr, hout, hsplit, pyReduce]
  | some b =>
    rw [hb] at hout
    simp only [pyStr] at hout
    cases lazy <;> simp [pyStr, hout, hsplit, pyReduce]

theorem load_folder_stack_empty_raises_witness :
    (read_from_bucket wDemo none (some "d") none true true).2 =
      Except.error (PyError.typeError "reduce() of empty iterable with no initial value") :=
  load_folder_stack_empty_raises wDemo "d" "" none true rfl rfl

/-- C4: folder-mode Load over a non-empty listing.  With stacking, the
result is one dataframe whose rows are the per-file rows concatenated in
listing order (lazy frames are collected first), so its row count is the
sum of the per-file row counts; without stacking, the result is the
ordered sequence of per-file frames, lazy or eager per the flag, one per
listed object, with no concatenation. -/
theorem load_folder_modes (w : World) (ff : String) (bucket_id : Option String)
    (b out t0 : String) (ts : List String) (lazy : Bool)
    (hb : resolveBucket w bucket_id = some b)
    (hout : w.lsOutput ("gsutil ls " ++ b ++ "/" ++ ff) = Except.ok out)
    (hsplit : (pySplit '\n' out).dropLast = t0 :: ts) :
    ((read_from_bucket w none (some ff) bucket_id lazy true).2 =
      Except.ok (LoadResult.stacked
        ⟨((t0 :: ts).map (fun f => (w.parse (pyReplace f b "bucket_io")).rows)).flatten⟩)) ∧
    (((t0 :: ts).map (fun f => (w.parse (pyReplace f b "bucket_io")).rows)).flatten.length =
      ((t0 :: ts).map (fun f => (w.parse (pyReplace f b "bucket_io")).rows.length)).sum) ∧
    ((read_from_bucket w none (some ff) bucket_id lazy false).2 =
      Except.ok (LoadResult.many ((t0 :: ts).map (fun f =>
        if lazy then Frame.lazyF ⟨w.parse (pyReplace f b "bucket_io")⟩
        else Frame.eagerF (w.parse (pyReplace f b "bucket_io")))))) := by
  refine ⟨?_, ?_, ?_⟩
  · simp only [read_from_bucket, ls_bucket, lsCmd, resolveBucket_idem]
    rw [hb]
    cases lazy <;>
      simp [hout, hsplit, pyStr, Frame.toDF, LF.collect, Function.comp_def, pyReduce_vstack_cons,
        List.map_map]
  · simp [List.length_flatten, List.map_map, Function.comp_def]
  · simp only [read_from_bucket, ls_bucket, lsCmd, resolveBucket_idem]
    rw [hb]
    cases lazy <;>
      simp [hout, hsplit, pyStr, List.map_map, Function.comp_def]

theorem load_folder_modes_witness :
    ((read_from_bucket wLs none (some "d") none true true).2 =
      Except.ok (LoadResult.stacked ⟨[["bucket_io/d/a.csv"], ["bucket_io/d/b.csv"]]⟩)) ∧
    (([["bucket_io/d/a.csv"], ["bucket_io/d/b.csv"]] : List (List String)).length = 2) :=
  by
    have h := load_folder_modes wLs "d" none "gs://ws" "gs://ws/d/a.csv\ngs://ws/d/b.csv\n"
      "gs://ws/d/a.csv" ["gs://ws/d/b.csv"] true rfl rfl rfl
    exact ⟨h.1, rfl⟩

theorem substituteLeading_append (b rest repl : String) :
    substituteLeading (b ++ rest) b repl = repl ++ rest := by
  obtain ⟨bd⟩ := b
  obtain ⟨rd⟩ := rest
  have hpre : bd.isPrefixOf (bd ++ rd) = true := by
    rw [List.isPrefixOf_iff_prefix]
    exact List.prefix_append _ _
  show substituteLeading ⟨bd ++ rd⟩ ⟨bd⟩ repl = repl ++ ⟨rd⟩
  unfold substituteLeading
  simp [hpre, List.drop_left]

/-- C5 counterexample: with bucket identifier "b" and listed object path
"b/x/b", folder-mode Load parses the local path "bucket_io/x/bucket_io" —
every occurrence of the bucket identifier is substituted — whereas
substituting only the leading occurrence, as the claim states, would give
"bucket_io/x/b". -/
theorem load_folder_replace_counterexample :
    read_from_bucket wRep none (some "x") none true false =
      ([Event.checkOutput "gsutil ls b/x",
        Event.system "gcloud storage cp 'b/x/*.csv' 'bucket_io/x'",
        Event.scanCsv "bucket_io/x/bucket_io"],
       Except.ok (LoadResult.many [Frame.lazyF ⟨⟨[]⟩⟩])) ∧
    substituteLeading "b/x/b" "b" "bucket_io" = "bucket_io/x/b" ∧
    ("bucket_io/x/bucket_io" : String) ≠ "bucket_io/x/b" := by
  refine ⟨rfl, rfl, by decide⟩

/-- C5 (amended): in folder mode the local path parsed for each listed
object is the listed path with every occurrence of the bucket identifier
replaced by "bucket_io" (Python str.replace semantics); whenever the
identifier occurs in a listed path only as its leading prefix, this agrees
with substituting just the leading occurrence and leaving the rest of the
path unchanged. -/
theorem load_folder_replace_all (w : World) (ff : String) (bucket_id : Option String)
    (b out : String)
    (hb : resolveBucket w bucket_id = some b)
    (hout : w.lsOutput ("gsutil ls " ++ b ++ "/" ++ ff) = Except.ok out) :
    ((read_from_bucket w none (some ff) bucket_id true false).2 =
      Except.ok (LoadResult.many ((pySplit '\n' out).dropLast.map (fun f =>
        Frame.lazyF ⟨w.parse (pyReplace f b "bucket_io")⟩)))) ∧
    (∀ rest : String, b.data ≠ [] → hasOccurrence b.data rest.data = false →
      pyReplace (b ++ rest) b "bucket_io" = substituteLeading (b ++ rest) b "bucket_io") := by
  constructor
  · simp only [read_from_bucket, ls_bucket, lsCmd, resolveBucket_idem]
    rw [hb]
    simp [hout, pyStr, List.map_map, Function.comp_def]
  · intro rest hne hno
    rw [pyReplace_leading b rest "bucket_io" hne hno, substituteLeading_append]

theorem load_folder_replace_all_witness :
    ((read_from_bucket wLs none (some "d") none true false).2 =
      Except.ok (LoadResult.many ((pySplit '\n' "gs://ws/d/a.csv\ngs://ws/d/b.csv\n").dropLast.map
        (fun f => Frame.lazyF ⟨wLs.parse (pyReplace f "gs://ws" "bucket_io")⟩)))) ∧
    pyReplace ("gs://ws" ++ "/d/a.csv") "gs://ws" "bucket_io" =
      substituteLeading ("gs://ws" ++ "/d/a.csv") "gs://ws" "bucket_io" := by
  have h := load_folder_replace_all wLs "d" none "gs://ws"
    "gs://ws/d/a.csv\ngs://ws/d/b.csv\n" rfl rfl
  exact ⟨h.1, h.2 "/d/a.csv" (by decide) (by decide)⟩

/-- C6: every operation invoked without an explicit bucket identifier uses
the value of WORKSPACE_BUCKET read from the world at call time: Download,
Upload, List, Remove, Load and WriteRemote all interpolate the current
environment value into the storage command they issue.  Since the world is
a parameter, two calls between which the environment variable changes
resolve to the respective current values. -/
theorem default_bucket_from_env (w : World) (v fp fn tgt t2 nm : String) (df : DF)
    (stack : Bool)
    (hv : w.env = some v)
    (hcsv : pyLast (pySplit '.' nm) = "csv")
    (hdir : w.isdir "bucket_io" = true) :
    copy_from_bucket w fp none =
      [Event.system ("gsutil cp '" ++ v ++ "/" ++ fp ++ "' ."),
       Event.stdoutLine ("[INFO] " ++ fp ++ " is successfully downloaded into your working space")] ∧
    (copy_to_bucket w fn tgt none).getLast? =
      some (Event.system ("gsutil cp " ++ fn ++ " " ++ v ++ "/" ++ tgt)) ∧
    ls_bucket w (some t2) none false =
      ([Event.system ("gsutil ls " ++ v ++ "/" ++ t2)], Except.ok none) ∧
    remove_from_bucket w fp none = [Event.system ("gsutil rm " ++ v ++ "/" ++ fp)] ∧
    (read_from_bucket w (some nm) none none true stack).1 =
      [Event.system ("gcloud storage cp '" ++ v ++ "/" ++ nm ++ "' 'bucket_io'"),
       Event.scanCsv ("bucket_io/" ++ nm)] ∧
    (write_to_bucket w df tgt none).1.getLast? =
      some (Event.system ("gsutil cp bucket_io/temp.csv " ++ v ++ "/" ++ tgt)) := by
  have hext : extNotCsv nm = false := by simp [extNotCsv, hcsv]
  refine ⟨?_, ?_, ?_, ?_, ?_, ?_⟩
  · simp [copy_from_bucket, resolveBucket, hv, pyStr]
  · simp [copy_to_bucket, resolveBucket, hv, pyStr, List.getLast?_concat]
  · simp [ls_bucket, lsCmd, resolveBucket, hv, pyStr]
  · simp [remove_from_bucket, resolveBucket, hv, pyStr]
  · simp [read_from_bucket, hext, resolveBucket, hv, pyStr]
  · have h2 : ∀ (x : Event) (l : List Event) (a : Event), (x :: (l ++ [a])).getLast? = some a := by
      intro x l a
      rw [← List.cons_append, List.getLast?_concat]
    simp only [write_to_bucket, hdir, if_true, copy_to_bucket, resolveBucket, hv, pyStr]
    exact h2 _ _ _

theorem default_bucket_from_env_witness :
    copy_from_bucket wLs "f.csv" none =
      [Event.system ("gsutil cp '" ++ "gs://ws" ++ "/" ++ "f.csv" ++ "' ."),
       Event.stdoutLine ("[INFO] " ++ "f.csv" ++ " is successfully downloaded into your working space")] :=
  (default_bucket_from_env wLs "gs://ws" "f.csv" "loc.csv" "d/out.csv" "d" "a.csv" ⟨[]⟩ false
    rfl rfl rfl).1
